import Mathlib

/-!
# Crash-dump subsystem of x64dbg (`src/exe/crashdump.cpp`)

A shallow embedding of the fault handler: every platform call is an oracle of an
environment record, every observable action is an entry of an effect trace, and
each C++ function becomes a Lean function from its arguments and the environment to
its return value and trace.

Conventions of the embedding:
* pointers, module handles and file handles are natural numbers, `0` being `NULL`;
* narrow and wide C strings are lists of characters, a nullable string an `Option`;
* a `DWORD`/`WORD` is a natural number, reduced modulo its width where the code
  stores or combines it;
* the `printf` family is embedded by a small interpreter for the conversions that
  occur in the file, run on the format strings exactly as the source spells them;
* fixed-size buffers keep their capacity: the 1024-byte message buffer of
  `CrashDumpFatal` truncates as `_TRUNCATE` does, and `wcscat_s` / `swprintf_s` on the
  `MAX_PATH` buffers `dumpDir` / `dumpFile` either store the whole text with its
  terminator or hand control to the CRT invalid-parameter handler, which does not return;
* a function that can lose control this way returns an `Option`: `none` when control never
  comes back to its caller.
-/

namespace CrashDump

/-! ## Wide strings and the printf conversions the file uses -/

/-- A C string (narrow or wide) without its terminator. -/
abbrev CStr := List Char

/-- The decimal digit `d` (for `d < 10`) as a character. -/
def digitChar (d : Nat) : Char := Char.ofNat (48 + d)

/-- Decimal digits of `n`, least significant first; `fuel` bounds the number of digits. -/
def digitsRev : Nat → Nat → List Char
  | 0, _ => []
  | fuel + 1, n => digitChar (n % 10) :: (if n / 10 = 0 then [] else digitsRev fuel (n / 10))

/-- The conversion `%u` / `%d` of a non-negative integer: its decimal digits. -/
def decimal (n : Nat) : CStr := (digitsRev (n + 1) n).reverse

/-- The conversion `%0wd` of a non-negative integer: decimal digits, zero-filled on the
left up to the minimum width `w`. -/
def zeroPad (w n : Nat) : CStr := List.replicate (w - (decimal n).length) '0' ++ decimal n

/-- One variadic argument of a printf-style call. -/
inductive Arg where
  | ws (s : CStr)
  | int (n : Nat)
  deriving DecidableEq, Repr

/-- Expansion of a printf-style format by the conversions `%ws`, `%u`, `%02d` and `%04d`;
each conversion consumes the next argument, every other character is copied. -/
def vformat : List Char → List Arg → CStr
  | [], _ => []
  | '%' :: 'w' :: 's' :: rest, Arg.ws s :: args => s ++ vformat rest args
  | '%' :: 'u' :: rest, Arg.int n :: args => decimal n ++ vformat rest args
  | '%' :: '0' :: '2' :: 'd' :: rest, Arg.int n :: args => zeroPad 2 n ++ vformat rest args
  | '%' :: '0' :: '4' :: 'd' :: rest, Arg.int n :: args => zeroPad 4 n ++ vformat rest args
  | c :: rest, args => c :: vformat rest args

/-! ## Platform constants and data -/

/-- Modelled from the spec: `EXCEPTION_CONTINUE_SEARCH`, the "continue search" disposition
of an exception filter. The platform headers that declare it are not part of the sources;
they give it the value 0, on which no statement below depends. -/
def EXCEPTION_CONTINUE_SEARCH : Int := 0

/-- Modelled from the spec: `DBG_PRINTEXCEPTION_C`, the ANSI debug-string signal, with its
value 0x40010006. The platform headers that declare it are not part of the sources. -/
def DBG_PRINTEXCEPTION_C : Nat := 0x40010006

/-- Modelled from the spec: `STATUS_INVALID_HANDLE`, with its value 0xC0000008. The
platform headers that declare it are not part of the sources. -/
def STATUS_INVALID_HANDLE : Nat := 0xC0000008

/-- Modelled from the spec: `MAX_PATH`, the capacity in wide characters (terminator
included) of the buffers `dumpDir` and `dumpFile`, with its platform value 260. The
platform headers that declare it are not part of the sources. -/
def MAX_PATH : Nat := 260

/-- The macro `PROCESS_CALLBACK_FILTER_ENABLED` of crashdump.cpp. -/
def PROCESS_CALLBACK_FILTER_ENABLED : Nat := 0x1

/-- Bitwise complement of a value held in an unsigned 32-bit `DWORD`: the operand that
`flags & ~PROCESS_CALLBACK_FILTER_ENABLED` combines with `flags` after the usual
conversion of `~0x1` to `unsigned long`. -/
def not32 (x : Nat) : Nat := 2 ^ 32 - 1 - x % 2 ^ 32

/-- The part of `EXCEPTION_RECORD` the handler reads. -/
structure EXCEPTION_RECORD where
  ExceptionCode : Nat
  deriving DecidableEq, Repr

/-- A fault event: `EXCEPTION_POINTERS` with its exception record. -/
structure EXCEPTION_POINTERS where
  ExceptionRecord : EXCEPTION_RECORD
  deriving DecidableEq, Repr

/-- The platform's local-time record; every field is a `WORD`. -/
structure SYSTEMTIME where
  wYear : Nat
  wMonth : Nat
  wDayOfWeek : Nat
  wDay : Nat
  wHour : Nat
  wMinute : Nat
  wSecond : Nat
  wMilliseconds : Nat
  deriving DecidableEq, Repr

/-- The snapshot-request descriptor handed to the dump writer. -/
structure MINIDUMP_EXCEPTION_INFORMATION where
  ThreadId : Nat
  ExceptionPointers : EXCEPTION_POINTERS
  ClientPointers : Bool
  deriving DecidableEq, Repr

/-- The detail levels of a snapshot that the file names. -/
inductive MINIDUMP_TYPE where
  | MiniDumpNormal
  deriving DecidableEq, Repr

/-- What a call of `CreateDirectoryW` leaves behind: the directory newly created (the call
returns `TRUE`), a directory that was there already (the call returns `FALSE`, which is
not an error for the capture), or no directory at the path (the call returns `FALSE`, for
instance because a file of that name is in the way). -/
inductive DirectoryOutcome where
  | created
  | alreadyExists
  | notCreated
  deriving DecidableEq, Repr

/-- The `BOOL` that `CreateDirectoryW` returns. -/
def DirectoryOutcome.result : DirectoryOutcome → Bool
  | DirectoryOutcome.created => true
  | DirectoryOutcome.alreadyExists => false
  | DirectoryOutcome.notCreated => false

/-- Observable actions, in the order the code performs them. Calls that only read
platform state (current directory, local time, thread id, last error, module and symbol
lookup, the policy getter) are oracles of the environment and leave no entry. -/
inductive Effect where
  | LoadLibrary (name : String)
  | SetUnhandledExceptionFilter
  | SetProcessUserModeExceptionPolicy (PolicyFlags : Nat)
  | set_invalid_parameter_handler
  | set_terminate
  | MessageBox (text caption : CStr)
  | CreateDirectoryW (path : CStr) (result : Bool)
  | CreateFileW (path : CStr) (result : Option Nat)
  | MiniDumpWriteDump (hFile : Nat) (DumpType : MINIDUMP_TYPE)
      (ExceptionParam : MINIDUMP_EXCEPTION_INFORMATION) (result : Bool)
  | CloseHandle (h : Nat)
  | call_CrashDumpCreate (ExceptionPointers : EXCEPTION_POINTERS)
  | invalid_parameter
  | rethrow
  deriving DecidableEq, Repr

/-- Outcome of running a function: its return value and the actions it performed. -/
structure Run (α : Type) where
  ret : α
  trace : List Effect
  deriving Repr

/-- The platform as the capture path sees it.
* `GetCurrentDirectoryW` is `none` when the call returns 0 and otherwise the directory it
  left in the buffer;
* `CreateDirectoryW` tells what the call leaves at the path;
* `CreateFileW` is the outcome of opening a file whose directory exists, `none` for
  `INVALID_HANDLE_VALUE`;
* `InvalidParameterHandlerInstalled` tells whether the CRT invalid-parameter handler is
  `InvalidParameterHandler`, as after `CrashDumpInitialize` in a release build, or the
  CRT default. -/
structure Platform where
  GetCurrentDirectoryW : Option CStr
  CreateDirectoryW : CStr → DirectoryOutcome
  GetLocalTime : SYSTEMTIME
  CreateFileW : CStr → Option Nat
  GetCurrentThreadId : Nat
  MiniDumpWriteDump : Nat → MINIDUMP_EXCEPTION_INFORMATION → Bool
  GetLastError : Nat
  InvalidParameterHandlerInstalled : Bool

/-- The handle `CreateFileW` returns for `path` inside the directory `dir`: the file
system opens no file in a directory that does not exist. -/
def Platform.openIn (env : Platform) (dir path : CStr) : Option Nat :=
  if env.CreateDirectoryW dir = DirectoryOutcome.notCreated then none
  else env.CreateFileW path

/-- The platform as initialization sees it: module lookup, symbol lookup, and the
behaviour of the policy getter (given the value of `*PolicyFlags` before the call, its
`BOOL` result and the value of `*PolicyFlags` after the call). -/
structure Loader where
  GetModuleHandleA : String → Nat
  LoadLibrary : String → Nat
  GetProcAddress : Nat → String → Nat
  GetProcessUserModeExceptionPolicy : Nat → Bool × Nat

/-- The three file-scope function pointers of crashdump.cpp. -/
structure Globals where
  MiniDumpWriteDumpPtr : Nat
  SetProcessUserModeExceptionPolicyPtr : Nat
  GetProcessUserModeExceptionPolicyPtr : Nat
  deriving DecidableEq, Repr

/-- The file-scope pointers at process start: zero-initialized. -/
def Globals.zero : Globals := ⟨0, 0, 0⟩

/-! ## The secure CRT on fixed-size buffers -/

/-- `wcscat_s` on a buffer of `cap` wide characters holding `dest`: the concatenation when
it fits together with its terminator, `none` when the CRT rejects the call as an invalid
parameter. -/
def wcscat_s (cap : Nat) (dest src : CStr) : Option CStr :=
  if dest.length + src.length < cap then some (dest ++ src) else none

/-- `swprintf_s` into a buffer of `cap` wide characters: the formatted text when it fits
together with its terminator, `none` when the CRT rejects the call as an invalid
parameter. -/
def swprintf_s (cap : Nat) (Format : CStr) (args : List Arg) : Option CStr :=
  if (vformat Format args).length < cap then some (vformat Format args) else none

/-! ## The functions of crashdump.cpp -/
/-- The first half of `CrashDumpInitialize`: the capability probe that fills the
file-scope pointers. -/
def probe (env : Loader) (g : Globals) : Globals :=
  let hKernel32 := env.GetModuleHandleA "kernel32.dll"
  let hDbghelp := env.LoadLibrary "dbghelp.dll"
  let g1 : Globals :=
    if hDbghelp ≠ 0 then
      ⟨env.GetProcAddress hDbghelp "MiniDumpWriteDump",
        g.SetProcessUserModeExceptionPolicyPtr, g.GetProcessUserModeExceptionPolicyPtr⟩
    else g
  if hKernel32 ≠ 0 then
    ⟨g1.MiniDumpWriteDumpPtr,
      env.GetProcAddress hKernel32 "SetProcessUserModeExceptionPolicy",
      env.GetProcAddress hKernel32 "GetProcessUserModeExceptionPolicy"⟩
  else g1

/-- The policy-relaxation block of `CrashDumpInitialize`. -/
def relaxPolicy (env : Loader) (g : Globals) : List Effect :=
  if g.SetProcessUserModeExceptionPolicyPtr ≠ 0 ∧ g.GetProcessUserModeExceptionPolicyPtr ≠ 0 then
    let r := env.GetProcessUserModeExceptionPolicy 0
    let flags := r.2 % 2 ^ 32
    if r.1 then
      [Effect.SetProcessUserModeExceptionPolicy (flags &&& not32 PROCESS_CALLBACK_FILTER_ENABLED)]
    else []
  else []

/-- `CrashDumpInitialize`: `DEBUG` tells whether the build defines `_DEBUG`, `g` holds the
file-scope pointers before the call. -/
def CrashDumpInitialize (DEBUG : Bool) (env : Loader) (g : Globals) : Run Globals :=
  let g2 := probe env g
  let filter :=
    if g2.MiniDumpWriteDumpPtr ≠ 0 then [Effect.SetUnhandledExceptionFilter] else []
  let crt :=
    if DEBUG then [] else [Effect.set_invalid_parameter_handler, Effect.set_terminate]
  ⟨g2, Effect.LoadLibrary "dbghelp.dll" :: (filter ++ relaxPolicy env g2 ++ crt)⟩

/-- `CrashDumpFatal`: format into a buffer of 1024 bytes, truncating, and show it in a
message box titled "Error". -/
def CrashDumpFatal (Format : CStr) (args : List Arg) : List Effect :=
  [Effect.MessageBox ((vformat Format args).take 1023) "Error".toList]

/-- The wide string a nullable argument contributes: itself, or `???` when null. -/
def orUnknown (s : Option CStr) : CStr :=
  match s with
  | some t => t
  | none => "???".toList

/-- `InvalidParameterHandler`: notify the user, then rethrow. -/
def InvalidParameterHandler (Expression Function File : Option CStr) (Line Reserved : Nat) :
    List Effect :=
  CrashDumpFatal
    "Invalid parameter passed to CRT function! Program will now crash.\n\nFile: %ws\nFunction: %ws\nExpression: %ws".toList
    [Arg.ws (orUnknown Function),
     Arg.ws (orUnknown File),
     Arg.ws (orUnknown Expression)] ++ [Effect.rethrow]

/-- `TerminateHandler`: notify the user, then rethrow. -/
def TerminateHandler : List Effect :=
  CrashDumpFatal
    "Process termination was requested in an unusual way. Program will now crash.".toList [] ++
    [Effect.rethrow]

/-- The secure CRT rejecting a call: it invokes the invalid-parameter handler, from which
control does not come back. With `installed` the handler is `InvalidParameterHandler`,
called as a release CRT calls it, without call-site strings, and it ends in `throw;`;
otherwise it is the CRT default, which ends the process. -/
def invalid_parameter_noinfo (installed : Bool) : List Effect :=
  Effect.invalid_parameter ::
    (if installed then InvalidParameterHandler none none none 0 0 else [])

/-- The local `dumpDir` of `CrashDumpCreate` after `wcscat_s`, `none` when the working
directory leaves no room for the suffix in `wchar_t dumpDir[MAX_PATH]`. -/
def dumpDir (cwd : CStr) : Option CStr := wcscat_s MAX_PATH cwd "\\minidump".toList

/-- The local `dumpFile` of `CrashDumpCreate` after `swprintf_s`, for the directory `dir`
held in `dumpDir`; `none` when the path does not fit in `wchar_t dumpFile[MAX_PATH]`. -/
def dumpFile (dir : CStr) (st : SYSTEMTIME) : Option CStr :=
  swprintf_s MAX_PATH "%ws\\dump-%02d%02d%04d_%02d%02d%02d%04d.dmp".toList
    [Arg.ws dir,
     Arg.int st.wDay,
     Arg.int st.wMonth,
     Arg.int st.wYear,
     Arg.int st.wHour,
     Arg.int st.wMinute,
     Arg.int st.wSecond,
     Arg.int st.wMilliseconds]

/-- The dump path `CrashDumpCreate` builds from the working directory and the local time:
`dumpDir` followed by `dumpFile`; `none` when one of the two buffers cannot hold it. -/
def dumpPath (cwd : CStr) (st : SYSTEMTIME) : Option CStr :=
  match dumpDir cwd with
  | none => none
  | some dir => dumpFile dir st

/-- `CrashDumpCreate`: the actions of one capture; `ret` is `some ()` when the function
returns and `none` when control is lost to the CRT invalid-parameter handler. -/
def CrashDumpCreate (env : Platform) (ExceptionPointers : EXCEPTION_POINTERS) :
    Run (Option Unit) :=
  match env.GetCurrentDirectoryW with
  | none =>
    ⟨some (),
      CrashDumpFatal "Unable to obtain current directory during crash dump\n".toList []⟩
  | some cwd =>
    match dumpDir cwd with
    | none => ⟨none, invalid_parameter_noinfo env.InvalidParameterHandlerInstalled⟩
    | some dir =>
      let mkdir := Effect.CreateDirectoryW dir (env.CreateDirectoryW dir).result
      let st := env.GetLocalTime
      match dumpFile dir st with
      | none =>
        ⟨none, mkdir :: invalid_parameter_noinfo env.InvalidParameterHandlerInstalled⟩
      | some file =>
        match env.openIn dir file with
        | none =>
          ⟨some (),
            mkdir :: Effect.CreateFileW file none ::
              CrashDumpFatal
                "Failed to open file path '%ws' while generating crash dump\n".toList
                [Arg.ws file]⟩
        | some fileHandle =>
          let info : MINIDUMP_EXCEPTION_INFORMATION :=
            ⟨env.GetCurrentThreadId, ExceptionPointers, true⟩
          let written := env.MiniDumpWriteDump fileHandle info
          ⟨some (),
            mkdir :: Effect.CreateFileW file (some fileHandle) ::
              Effect.MiniDumpWriteDump fileHandle MINIDUMP_TYPE.MiniDumpNormal info written ::
                ((if written then []
                  else CrashDumpFatal "MiniDumpWriteDump failed. Error: %u\n".toList
                    [Arg.int env.GetLastError]) ++
                  [Effect.CloseHandle fileHandle])⟩

/-- `CrashDumpExceptionHandler`: `ExceptionInfo` is `none` for a null pointer; `ret` is
the disposition returned, `none` when the capture never gives control back. -/
def CrashDumpExceptionHandler (env : Platform) (ExceptionInfo : Option EXCEPTION_POINTERS) :
    Run (Option Int) :=
  match ExceptionInfo with
  | none => ⟨some EXCEPTION_CONTINUE_SEARCH, []⟩
  | some info =>
    if info.ExceptionRecord.ExceptionCode > 0x00001000 then
      if info.ExceptionRecord.ExceptionCode = DBG_PRINTEXCEPTION_C
          ∨ info.ExceptionRecord.ExceptionCode = 0x4001000A
          ∨ info.ExceptionRecord.ExceptionCode = STATUS_INVALID_HANDLE
          ∨ info.ExceptionRecord.ExceptionCode = 0x406D1388 then
        ⟨some EXCEPTION_CONTINUE_SEARCH, []⟩
      else
        match (CrashDumpCreate env info).ret with
        | none =>
          ⟨none, Effect.call_CrashDumpCreate info :: (CrashDumpCreate env info).trace⟩
        | some _ =>
          ⟨some EXCEPTION_CONTINUE_SEARCH,
            Effect.call_CrashDumpCreate info :: (CrashDumpCreate env info).trace⟩
    else ⟨some EXCEPTION_CONTINUE_SEARCH, []⟩

/-! ## Reading a trace -/

/-- The action is a call of the snapshot writer. -/
def Effect.isWriter : Effect → Bool
  | Effect.MiniDumpWriteDump _ _ _ _ => true
  | _ => false

/-- The action closes a handle. -/
def Effect.isClose : Effect → Bool
  | Effect.CloseHandle _ => true
  | _ => false

/-- The action shows a diagnostic message. -/
def Effect.isMessage : Effect → Bool
  | Effect.MessageBox _ _ => true
  | _ => false

/-- The action is a `CreateFileW` that returned a valid handle. -/
def Effect.isOpened : Effect → Bool
  | Effect.CreateFileW _ (some _) => true
  | _ => false

/-- The action creates a directory or creates/opens a file. -/
def Effect.isFileSystem : Effect → Bool
  | Effect.CreateDirectoryW _ _ => true
  | Effect.CreateFileW _ _ => true
  | _ => false

/-- The action is a call of `CrashDumpCreate`. -/
def Effect.isCapture : Effect → Bool
  | Effect.call_CrashDumpCreate _ => true
  | _ => false

/-- The action installs one of the three hooks. -/
def Effect.isHook : Effect → Bool
  | Effect.SetUnhandledExceptionFilter => true
  | Effect.set_invalid_parameter_handler => true
  | Effect.set_terminate => true
  | _ => false

/-- The action is a call of the policy setter. -/
def Effect.isSetPolicy : Effect → Bool
  | Effect.SetProcessUserModeExceptionPolicy _ => true
  | _ => false

/-- The capture actions from the successful open of the output file onwards: the open
itself, the writer, diagnostics and the close. -/
def Effect.isCaptureStep (e : Effect) : Bool :=
  e.isOpened || e.isWriter || e.isMessage || e.isClose

/-- The number a list of decimal digits denotes, least significant digit first. -/
def valueRev : List Char → Nat
  | [] => 0
  | c :: cs => (c.toNat - 48) + 10 * valueRev cs

/-- A local time as `GetLocalTime` reports it: every printed field within its range. -/
def SYSTEMTIME.valid (st : SYSTEMTIME) : Prop :=
  (1 ≤ st.wDay ∧ st.wDay ≤ 31) ∧ (1 ≤ st.wMonth ∧ st.wMonth ≤ 12)
    ∧ (1601 ≤ st.wYear ∧ st.wYear ≤ 30827) ∧ st.wHour ≤ 23 ∧ st.wMinute ≤ 59
    ∧ st.wSecond ≤ 59 ∧ st.wMilliseconds ≤ 999

/-- Two local times agree on the seven fields that `CrashDumpCreate` prints. -/
def SYSTEMTIME.sameStamp (a b : SYSTEMTIME) : Prop :=
  a.wDay = b.wDay ∧ a.wMonth = b.wMonth ∧ a.wYear = b.wYear ∧ a.wHour = b.wHour
    ∧ a.wMinute = b.wMinute ∧ a.wSecond = b.wSecond ∧ a.wMilliseconds = b.wMilliseconds

/-- A working directory of 222 characters, one more than `dumpFile` can take. -/
def longCwd : CStr := "C:\\".toList ++ List.replicate 219 'x'

/-- A sample platform in which every call succeeds: release build with the CRT hooks
installed, working directory `C:\x64dbg`, local time 1 November 2026 18:14:07.042, file
handle 64, thread 7. -/
def samplePlatform : Platform where
  GetCurrentDirectoryW := some "C:\\x64dbg".toList
  CreateDirectoryW := fun _ => DirectoryOutcome.created
  GetLocalTime := ⟨2026, 11, 0, 1, 18, 14, 7, 42⟩
  CreateFileW := fun _ => some 64
  GetCurrentThreadId := 7
  MiniDumpWriteDump := fun _ _ => true
  GetLastError := 0
  InvalidParameterHandlerInstalled := true

/-- The sample platform with a `minidump` directory that already exists, so that
`CreateDirectoryW` returns `FALSE` while everything else succeeds. -/
def existingDirPlatform : Platform where
  GetCurrentDirectoryW := some "C:\\x64dbg".toList
  CreateDirectoryW := fun _ => DirectoryOutcome.alreadyExists
  GetLocalTime := ⟨2026, 11, 0, 1, 18, 14, 7, 42⟩
  CreateFileW := fun _ => some 64
  GetCurrentThreadId := 7
  MiniDumpWriteDump := fun _ _ => true
  GetLastError := 0
  InvalidParameterHandlerInstalled := true

/-- The sample platform with a file named `minidump` in the way: the directory cannot be
created, so the output file cannot be opened. -/
def blockedDirPlatform : Platform where
  GetCurrentDirectoryW := some "C:\\x64dbg".toList
  CreateDirectoryW := fun _ => DirectoryOutcome.notCreated
  GetLocalTime := ⟨2026, 11, 0, 1, 18, 14, 7, 42⟩
  CreateFileW := fun _ => some 64
  GetCurrentThreadId := 7
  MiniDumpWriteDump := fun _ _ => true
  GetLastError := 3
  InvalidParameterHandlerInstalled := true

/-- The sample platform with a failing snapshot writer and last error 5. -/
def failingWriterPlatform : Platform where
  GetCurrentDirectoryW := some "C:\\x64dbg".toList
  CreateDirectoryW := fun _ => DirectoryOutcome.created
  GetLocalTime := ⟨2026, 11, 0, 1, 18, 14, 7, 42⟩
  CreateFileW := fun _ => some 64
  GetCurrentThreadId := 7
  MiniDumpWriteDump := fun _ _ => false
  GetLastError := 5
  InvalidParameterHandlerInstalled := true

/-- The sample platform without a readable working directory. -/
def noCwdPlatform : Platform where
  GetCurrentDirectoryW := none
  CreateDirectoryW := fun _ => DirectoryOutcome.created
  GetLocalTime := ⟨2026, 11, 0, 1, 18, 14, 7, 42⟩
  CreateFileW := fun _ => some 64
  GetCurrentThreadId := 7
  MiniDumpWriteDump := fun _ _ => true
  GetLastError := 0
  InvalidParameterHandlerInstalled := true

/-- The platform of `longCwdPlatform` with a file named `minidump` in the way. -/
def longCwdBlockedPlatform : Platform where
  GetCurrentDirectoryW := some longCwd
  CreateDirectoryW := fun _ => DirectoryOutcome.notCreated
  GetLocalTime := ⟨2026, 11, 0, 1, 18, 14, 7, 42⟩
  CreateFileW := fun _ => some 64
  GetCurrentThreadId := 7
  MiniDumpWriteDump := fun _ _ => true
  GetLastError := 3
  InvalidParameterHandlerInstalled := true

/-- A loader on which `dbghelp.dll` cannot be loaded; `kernel32.dll` is at 1 and exports
the policy setter at 20 and the getter at 21; the current policy is `0x3`. -/
def noDbghelpLoader : Loader where
  GetModuleHandleA := fun _ => 1
  LoadLibrary := fun _ => 0
  GetProcAddress := fun _ name =>
    if name = "SetProcessUserModeExceptionPolicy" then 20
    else if name = "GetProcessUserModeExceptionPolicy" then 21 else 0
  GetProcessUserModeExceptionPolicy := fun _ => (true, 0x3)

/-- A loader like `noDbghelpLoader` whose `kernel32.dll` lacks the policy getter. -/
def noGetterLoader : Loader where
  GetModuleHandleA := fun _ => 1
  LoadLibrary := fun _ => 0
  GetProcAddress := fun _ name =>
    if name = "SetProcessUserModeExceptionPolicy" then 20 else 0
  GetProcessUserModeExceptionPolicy := fun _ => (true, 0x3)

set_option maxRecDepth 20000

/-! ## The capture returns when the dump path fits -/

/-- Neither `InvalidParameterHandler` nor the CRT default calls `CrashDumpCreate`. -/
theorem invalid_parameter_noinfo_no_capture (installed : Bool) :
    (invalid_parameter_noinfo installed).countP Effect.isCapture = 0 := by
  cases installed <;> simp [invalid_parameter_noinfo, InvalidParameterHandler, CrashDumpFatal,
    Effect.isCapture]

/-- The body of `CrashDumpCreate` never calls `CrashDumpCreate` again. -/
theorem CrashDumpCreate_no_capture (env : Platform) (ev : EXCEPTION_POINTERS) :
    (CrashDumpCreate env ev).trace.countP Effect.isCapture = 0 := by
  unfold CrashDumpCreate
  cases env.GetCurrentDirectoryW with
  | none => simp [CrashDumpFatal, Effect.isCapture]
  | some cwd =>
    dsimp only
    cases dumpDir cwd with
    | none => exact invalid_parameter_noinfo_no_capture _
    | some dir =>
      dsimp only
      cases dumpFile dir env.GetLocalTime with
      | none =>
        dsimp only
        rw [List.countP_cons_of_neg _ _ (by simp [Effect.isCapture])]
        exact invalid_parameter_noinfo_no_capture _
      | some file =>
        dsimp only
        cases env.openIn dir file with
        | none => simp [CrashDumpFatal, Effect.isCapture]
        | some h =>
          dsimp only
          cases env.MiniDumpWriteDump h ⟨env.GetCurrentThreadId, ev, true⟩ <;>
            simp [CrashDumpFatal, Effect.isCapture]

/-- Every code strictly above 0x1000 that is not denylisted is captured exactly once, on
the event that was delivered. -/
theorem CrashDumpExceptionHandler_captures_above_threshold (env : Platform)
    (info : EXCEPTION_POINTERS)
    (habove : 0x1000 < info.ExceptionRecord.ExceptionCode)
    (h1 : info.ExceptionRecord.ExceptionCode ≠ 0x40010006)
    (h2 : info.ExceptionRecord.ExceptionCode ≠ 0x4001000A)
    (h3 : info.ExceptionRecord.ExceptionCode ≠ 0xC0000008)
    (h4 : info.ExceptionRecord.ExceptionCode ≠ 0x406D1388) :
    (CrashDumpExceptionHandler env (some info)).trace
        = Effect.call_CrashDumpCreate info :: (CrashDumpCreate env info).trace
      ∧ (CrashDumpExceptionHandler env (some info)).trace.countP Effect.isCapture = 1 := by
  have ht : (CrashDumpExceptionHandler env (some info)).trace
      = Effect.call_CrashDumpCreate info :: (CrashDumpCreate env info).trace := by
    unfold CrashDumpExceptionHandler
    dsimp only
    rw [if_pos habove, if_neg]
    · cases (CrashDumpCreate env info).ret <;> rfl
    · simp only [DBG_PRINTEXCEPTION_C, STATUS_INVALID_HANDLE]
      omega
  refine ⟨ht, ?_⟩
  rw [ht, List.countP_cons_of_pos _ _ (by rfl), CrashDumpCreate_no_capture]

/-- C2: at the boundary code 0x1000, which is neither below the threshold nor one of the
four denylisted codes, `CrashDumpExceptionHandler` performs no action at all; in
particular it does not call `CrashDumpCreate`. -/
theorem CrashDumpExceptionHandler_threshold_code_not_captured :
    ¬ ((0x1000 : Nat) < 0x1000)
      ∧ (0x1000 : Nat) ≠ DBG_PRINTEXCEPTION_C ∧ (0x1000 : Nat) ≠ 0x4001000A
      ∧ (0x1000 : Nat) ≠ STATUS_INVALID_HANDLE ∧ (0x1000 : Nat) ≠ 0x406D1388
      ∧ ∀ env : Platform,
          (CrashDumpExceptionHandler env (some ⟨⟨0x1000⟩⟩)).trace = []
            ∧ (CrashDumpExceptionHandler env (some ⟨⟨0x1000⟩⟩)).trace.countP
                Effect.isCapture = 0 := by
  refine ⟨by decide, by decide, by decide, by decide, by decide, fun env => ?_⟩
  have ht : (CrashDumpExceptionHandler env (some ⟨⟨0x1000⟩⟩)).trace = [] := by
    unfold CrashDumpExceptionHandler
    dsimp only
    rw [if_neg (by decide)]
  rw [ht]
  exact ⟨rfl, rfl⟩

/-- C3: for a fault event whose code is below 0x1000 or is one of the four denylisted
codes (each of which exceeds 0x1000), `CrashDumpExceptionHandler` performs no action: no
call of `CrashDumpCreate`, no message, no file; it only returns continue-search. -/
theorem CrashDumpExceptionHandler_discards_benign (env : Platform) (info : EXCEPTION_POINTERS)
    (hcode : info.ExceptionRecord.ExceptionCode < 0x1000
      ∨ info.ExceptionRecord.ExceptionCode = 0x40010006
      ∨ info.ExceptionRecord.ExceptionCode = 0x4001000A
      ∨ info.ExceptionRecord.ExceptionCode = 0xC0000008
      ∨ info.ExceptionRecord.ExceptionCode = 0x406D1388) :
    (CrashDumpExceptionHandler env (some info)).trace = []
      ∧ (CrashDumpExceptionHandler env (some info)).ret = some EXCEPTION_CONTINUE_SEARCH
      ∧ (0x1000 < DBG_PRINTEXCEPTION_C ∧ DBG_PRINTEXCEPTION_C = 0x40010006)
      ∧ (0x1000 : Nat) < 0x4001000A
      ∧ (0x1000 < STATUS_INVALID_HANDLE ∧ STATUS_INVALID_HANDLE = 0xC0000008)
      ∧ (0x1000 : Nat) < 0x406D1388 := by
  have hskip : ¬ (0x1000 < info.ExceptionRecord.ExceptionCode
      ∧ ¬ (info.ExceptionRecord.ExceptionCode = DBG_PRINTEXCEPTION_C
        ∨ info.ExceptionRecord.ExceptionCode = 0x4001000A
        ∨ info.ExceptionRecord.ExceptionCode = STATUS_INVALID_HANDLE
        ∨ info.ExceptionRecord.ExceptionCode = 0x406D1388)) := by
    simp only [DBG_PRINTEXCEPTION_C, STATUS_INVALID_HANDLE]
    omega
  refine ⟨?_, ?_, by decide, by decide, by decide, by decide⟩
  · unfold CrashDumpExceptionHandler
    dsimp only
    split_ifs with ha hd
    · rfl
    · exact absurd ⟨ha, hd⟩ hskip
    · rfl
  · unfold CrashDumpExceptionHandler
    dsimp only
    split_ifs with ha hd
    · rfl
    · exact absurd ⟨ha, hd⟩ hskip
    · rfl

/-- C3 at the ANSI debug-string signal on the sample platform. -/
theorem CrashDumpExceptionHandler_discards_benign_witness :
    (CrashDumpExceptionHandler samplePlatform (some ⟨⟨0x40010006⟩⟩)).trace = []
      ∧ (CrashDumpExceptionHandler samplePlatform (some ⟨⟨0x40010006⟩⟩)).ret
          = some EXCEPTION_CONTINUE_SEARCH :=
  ⟨(CrashDumpExceptionHandler_discards_benign samplePlatform ⟨⟨0x40010006⟩⟩
      (Or.inr (Or.inl rfl))).1,
    (CrashDumpExceptionHandler_discards_benign samplePlatform ⟨⟨0x40010006⟩⟩
      (Or.inr (Or.inl rfl))).2.1⟩

/-! ## Decimal conversions -/

theorem digitChar_toNat (d : Nat) (h : d < 10) : (digitChar d).toNat - 48 = d := by
  interval_cases d <;> rfl

theorem valueRev_digitsRev (fuel : Nat) : ∀ n, n < fuel → valueRev (digitsRev fuel n) = n := by
  induction fuel with
  | zero => intro n h; omega
  | succ f ih =>
    intro n h
    unfold digitsRev
    by_cases h0 : n / 10 = 0
    · rw [if_pos h0]
      simp only [valueRev, digitChar_toNat (n % 10) (Nat.mod_lt _ (by decide))]
      omega
    · rw [if_neg h0]
      simp only [valueRev, digitChar_toNat (n % 10) (Nat.mod_lt _ (by decide))]
      rw [ih (n / 10) (by omega)]
      omega

theorem valueRev_append_zeros (l : List Char) (k : Nat) :
    valueRev (l ++ List.replicate k '0') = valueRev l := by
  induction l with
  | nil =>
    induction k with
    | zero => rfl
    | succ k ih =>
      simp only [List.nil_append] at ih
      simp only [List.nil_append, List.replicate_succ, valueRev, ih]
      rfl
  | cons c cs ih =>
    rw [List.cons_append]
    show c.toNat - 48 + 10 * valueRev (cs ++ List.replicate k '0') = _
    rw [ih]
    rfl

theorem valueRev_zeroPad (w n : Nat) : valueRev (zeroPad w n).reverse = n := by
  unfold zeroPad decimal
  rw [List.reverse_append, List.reverse_reverse, List.reverse_replicate, valueRev_append_zeros]
  exact valueRev_digitsRev (n + 1) n (Nat.lt_succ_self n)

theorem zeroPad_inj (w a b : Nat) (h : zeroPad w a = zeroPad w b) : a = b := by
  have := congrArg (fun l => valueRev l.reverse) h
  simpa only [valueRev_zeroPad] using this

theorem digitsRev_length_le (fuel : Nat) :
    ∀ n k, 0 < k → n < 10 ^ k → (digitsRev fuel n).length ≤ k := by
  induction fuel with
  | zero => intro n k _ _; simp [digitsRev]
  | succ f ih =>
    intro n k hk hn
    unfold digitsRev
    by_cases h0 : n / 10 = 0
    · rw [if_pos h0]; simpa using hk
    · rw [if_neg h0]
      obtain ⟨j, rfl⟩ : ∃ j, k = j + 1 := ⟨k - 1, by omega⟩
      have hj : 0 < j := by
        rcases Nat.eq_zero_or_pos j with rfl | hj
        · simp at hn; omega
        · exact hj
      have hdiv : n / 10 < 10 ^ j := by
        rw [Nat.div_lt_iff_lt_mul (by decide)]
        rw [pow_succ] at hn
        exact hn
      have := ih (n / 10) j hj hdiv
      simp only [List.length_cons]
      omega

theorem digitsRev_length_pos (fuel n : Nat) : 0 < (digitsRev (fuel + 1) n).length := by
  unfold digitsRev; simp

theorem decimal_length_le (n k : Nat) (hk : 0 < k) (hn : n < 10 ^ k) :
    (decimal n).length ≤ k := by
  unfold decimal
  rw [List.length_reverse]
  exact digitsRev_length_le _ n k hk hn

theorem zeroPad_length (w n : Nat) (hw : 0 < w) (hn : n < 10 ^ w) :
    (zeroPad w n).length = w := by
  have := decimal_length_le n w hw hn
  unfold zeroPad
  rw [List.length_append, List.length_replicate]
  omega


/-- A zero-filled conversion of minimum width `w` takes at most `k` characters when the
number has at most `k` digits and `w ≤ k`. -/
theorem zeroPad_length_le (w n k : Nat) (hk : 0 < k) (hn : n < 10 ^ k) (hw : w ≤ k) :
    (zeroPad w n).length ≤ k := by
  have := decimal_length_le n k hk hn
  unfold zeroPad
  rw [List.length_append, List.length_replicate]
  omega

/-! ## The dump path -/

/-- The text `swprintf_s` formats for `dumpFile`, field by field:
`<dir>\dump-DDMMYYYY_HHMMSSmmmm.dmp`. -/
theorem vformat_dumpFile (dir : CStr) (st : SYSTEMTIME) :
    vformat "%ws\\dump-%02d%02d%04d_%02d%02d%02d%04d.dmp".toList
        [Arg.ws dir, Arg.int st.wDay, Arg.int st.wMonth, Arg.int st.wYear, Arg.int st.wHour,
         Arg.int st.wMinute, Arg.int st.wSecond, Arg.int st.wMilliseconds]
      = dir ++ ("\\dump-".toList ++ (zeroPad 2 st.wDay ++
          (zeroPad 2 st.wMonth ++ (zeroPad 4 st.wYear ++ ('_' :: (zeroPad 2 st.wHour ++
            (zeroPad 2 st.wMinute ++ (zeroPad 2 st.wSecond ++
              (zeroPad 4 st.wMilliseconds ++ ".dmp".toList))))))))) := rfl

/-- A `dumpFile` that was built is the formatted text and is shorter than `MAX_PATH`. -/
theorem dumpFile_some (dir : CStr) (st : SYSTEMTIME) (p : CStr)
    (h : dumpFile dir st = some p) :
    p = dir ++ ("\\dump-".toList ++ (zeroPad 2 st.wDay ++
          (zeroPad 2 st.wMonth ++ (zeroPad 4 st.wYear ++ ('_' :: (zeroPad 2 st.wHour ++
            (zeroPad 2 st.wMinute ++ (zeroPad 2 st.wSecond ++
              (zeroPad 4 st.wMilliseconds ++ ".dmp".toList)))))))))
      ∧ p.length < MAX_PATH := by
  unfold dumpFile swprintf_s at h
  rw [vformat_dumpFile] at h
  split_ifs at h with hlen
  have hp := Option.some.inj h
  rw [← hp]
  exact ⟨rfl, hlen⟩

/-- A `dumpDir` that was built is the working directory followed by `\minidump`. -/
theorem dumpDir_some (cwd dir : CStr) (h : dumpDir cwd = some dir) :
    dir = cwd ++ "\\minidump".toList := by
  unfold dumpDir wcscat_s at h
  split_ifs at h
  exact (Option.some.inj h).symm

/-- A dump path that was built, field by field:
`<cwd>\minidump\dump-DDMMYYYY_HHMMSSmmmm.dmp`. -/
theorem dumpPath_some (cwd : CStr) (st : SYSTEMTIME) (p : CStr)
    (h : dumpPath cwd st = some p) :
    p = (cwd ++ "\\minidump".toList) ++ ("\\dump-".toList ++ (zeroPad 2 st.wDay ++
          (zeroPad 2 st.wMonth ++ (zeroPad 4 st.wYear ++ ('_' :: (zeroPad 2 st.wHour ++
            (zeroPad 2 st.wMinute ++ (zeroPad 2 st.wSecond ++
              (zeroPad 4 st.wMilliseconds ++ ".dmp".toList))))))))) := by
  unfold dumpPath at h
  cases hd : dumpDir cwd with
  | none => rw [hd] at h; exact absurd h (by simp)
  | some dir =>
    rw [hd] at h
    rw [(dumpFile_some dir st p h).1, dumpDir_some cwd dir hd]

/-- Every working directory of at most 220 characters leaves room for the dump path of
every valid local time. -/
theorem dumpPath_built (cwd : CStr) (st : SYSTEMTIME) (hcwd : cwd.length ≤ 220)
    (hst : st.valid) : ∃ p, dumpPath cwd st = some p := by
  obtain ⟨⟨_, h1⟩, ⟨_, h2⟩, ⟨_, h3⟩, h4, h5, h6, h7⟩ := hst
  have l1 := zeroPad_length 2 st.wDay (by decide) (by norm_num; omega)
  have l2 := zeroPad_length 2 st.wMonth (by decide) (by norm_num; omega)
  have l3 := zeroPad_length_le 4 st.wYear 5 (by decide) (by norm_num; omega) (by decide)
  have l4 := zeroPad_length 2 st.wHour (by decide) (by norm_num; omega)
  have l5 := zeroPad_length 2 st.wMinute (by decide) (by norm_num; omega)
  have l6 := zeroPad_length 2 st.wSecond (by decide) (by norm_num; omega)
  have l7 := zeroPad_length 4 st.wMilliseconds (by decide) (by norm_num; omega)
  have k1 : "\\minidump".toList.length = 9 := by decide
  have k2 : "\\dump-".toList.length = 6 := by decide
  have k3 : ".dmp".toList.length = 4 := by decide
  have hd : dumpDir cwd = some (cwd ++ "\\minidump".toList) := by
    unfold dumpDir wcscat_s
    rw [if_pos]
    rw [k1]
    unfold MAX_PATH
    omega
  unfold dumpPath
  rw [hd]
  dsimp only
  unfold dumpFile swprintf_s
  rw [vformat_dumpFile, if_pos]
  · exact ⟨_, rfl⟩
  · simp only [List.length_append, List.length_cons, k1, k2, k3, l1, l2, l4, l5, l6, l7]
    unfold MAX_PATH
    omega

/-- Two valid local times with the same dump path agree on the seven printed fields. -/
theorem dumpPath_inj (cwd : CStr) (a b : SYSTEMTIME) (ha : a.valid) (hb : b.valid)
    (pa pb : CStr) (hpa : dumpPath cwd a = some pa) (hpb : dumpPath cwd b = some pb)
    (h : pa = pb) : a.sameStamp b := by
  obtain ⟨⟨_, ha1⟩, ⟨_, ha2⟩, ⟨_, _⟩, ha4, ha5, ha6, ha7⟩ := ha
  obtain ⟨⟨_, hb1⟩, ⟨_, hb2⟩, ⟨_, _⟩, hb4, hb5, hb6, hb7⟩ := hb
  have len2 : ∀ n, n ≤ 59 → (zeroPad 2 n).length = 2 := fun n hn =>
    zeroPad_length 2 n (by decide) (by norm_num; omega)
  have len4 : ∀ n, n ≤ 999 → (zeroPad 4 n).length = 4 := fun n hn =>
    zeroPad_length 4 n (by decide) (by norm_num; omega)
  rw [dumpPath_some cwd a pa hpa, dumpPath_some cwd b pb hpb] at h
  have h := List.append_cancel_left (List.append_cancel_left h)
  obtain ⟨hd, h⟩ := List.append_inj h (by rw [len2 _ (by omega), len2 _ (by omega)])
  obtain ⟨hm, h⟩ := List.append_inj h (by rw [len2 _ (by omega), len2 _ (by omega)])
  obtain ⟨hy, h⟩ := List.append_inj' h (by
    simp only [List.length_cons, List.length_append, len2 _ (by omega : a.wHour ≤ 59),
      len2 _ (by omega : b.wHour ≤ 59), len2 _ ha5, len2 _ hb5, len2 _ ha6, len2 _ hb6,
      len4 _ ha7, len4 _ hb7])
  have h := List.tail_eq_of_cons_eq h
  obtain ⟨hh, h⟩ := List.append_inj h (by
    rw [len2 _ (by omega : a.wHour ≤ 59), len2 _ (by omega : b.wHour ≤ 59)])
  obtain ⟨hmi, h⟩ := List.append_inj h (by rw [len2 _ ha5, len2 _ hb5])
  obtain ⟨hs, h⟩ := List.append_inj h (by rw [len2 _ ha6, len2 _ hb6])
  have hms := List.append_cancel_right h
  exact ⟨zeroPad_inj _ _ _ hd, zeroPad_inj _ _ _ hm, zeroPad_inj _ _ _ hy,
    zeroPad_inj _ _ _ hh, zeroPad_inj _ _ _ hmi, zeroPad_inj _ _ _ hs, zeroPad_inj _ _ _ hms⟩

/-- Two local times that agree on the seven printed fields have the same dump path. -/
theorem dumpPath_same (cwd : CStr) (a b : SYSTEMTIME) (h : a.sameStamp b) :
    dumpPath cwd a = dumpPath cwd b := by
  obtain ⟨h1, h2, h3, h4, h5, h6, h7⟩ := h
  unfold dumpPath dumpFile
  rw [h1, h2, h3, h4, h5, h6, h7]

/-- C5, as stated, fails: from a working directory of 222 characters no dump path is
built, so two valid timestamps one millisecond apart do not get two different paths:
`swprintf_s` rejects both and `dumpFile` holds the same (no) path for either. -/
theorem dumpPath_long_cwd_not_built :
    longCwd.length = 222
      ∧ SYSTEMTIME.valid ⟨2026, 11, 0, 1, 18, 14, 7, 42⟩
      ∧ SYSTEMTIME.valid ⟨2026, 11, 0, 1, 18, 14, 7, 43⟩
      ∧ ¬ SYSTEMTIME.sameStamp ⟨2026, 11, 0, 1, 18, 14, 7, 42⟩
            ⟨2026, 11, 0, 1, 18, 14, 7, 43⟩
      ∧ dumpPath longCwd ⟨2026, 11, 0, 1, 18, 14, 7, 42⟩
          = dumpPath longCwd ⟨2026, 11, 0, 1, 18, 14, 7, 43⟩
      ∧ dumpPath longCwd ⟨2026, 11, 0, 1, 18, 14, 7, 42⟩ = none := by
  refine ⟨by decide, by unfold SYSTEMTIME.valid; decide, by unfold SYSTEMTIME.valid; decide,
    by unfold SYSTEMTIME.sameStamp; decide, by decide, by decide⟩

/-- C5, amended: for every working directory and every two valid local timestamps whose
dump paths `<cwd>\minidump\dump-DDMMYYYY_HHMMSSmmmm.dmp` fit in the `MAX_PATH` buffers of
`CrashDumpCreate`, the two paths differ as soon as the timestamps differ in one of the
seven printed fields, and coincide when the seven fields are equal. -/
theorem dumpPath_injective_in_timestamp (cwd : CStr) (a b : SYSTEMTIME)
    (ha : a.valid) (hb : b.valid) (pa pb : CStr)
    (hpa : dumpPath cwd a = some pa) (hpb : dumpPath cwd b = some pb) :
    (¬ a.sameStamp b → pa ≠ pb) ∧ (a.sameStamp b → pa = pb) := by
  refine ⟨fun hne heq => hne (dumpPath_inj cwd a b ha hb pa pb hpa hpb heq), fun hs => ?_⟩
  have := dumpPath_same cwd a b hs
  rw [hpa, hpb] at this
  exact Option.some.inj this

/-- C5, amended, on two timestamps one millisecond apart, and on a timestamp with
itself. -/
theorem dumpPath_injective_in_timestamp_witness :
    "C:\\x64dbg\\minidump\\dump-01112026_1814070042.dmp".toList
        ≠ "C:\\x64dbg\\minidump\\dump-01112026_1814070043.dmp".toList
      ∧ "C:\\x64dbg\\minidump\\dump-01112026_1814070042.dmp".toList
        = "C:\\x64dbg\\minidump\\dump-01112026_1814070042.dmp".toList :=
  ⟨(dumpPath_injective_in_timestamp "C:\\x64dbg".toList ⟨2026, 11, 0, 1, 18, 14, 7, 42⟩
      ⟨2026, 11, 0, 1, 18, 14, 7, 43⟩ (by unfold SYSTEMTIME.valid; decide)
      (by unfold SYSTEMTIME.valid; decide) _ _ (by decide) (by decide)).1
      (by unfold SYSTEMTIME.sameStamp; decide),
    (dumpPath_injective_in_timestamp "C:\\x64dbg".toList ⟨2026, 11, 0, 1, 18, 14, 7, 42⟩
      ⟨2026, 11, 0, 1, 18, 14, 7, 42⟩ (by unfold SYSTEMTIME.valid; decide)
      (by unfold SYSTEMTIME.valid; decide) _ _ (by decide) (by decide)).2
      (by unfold SYSTEMTIME.sameStamp; decide)⟩

/-- The longest working directory whose dump path still fits has 221 characters (with a
four-digit year): the path then has 259 characters. -/
theorem dumpPath_boundary :
    (dumpPath ("C:\\".toList ++ List.replicate 218 'x') ⟨2026, 11, 0, 1, 18, 14, 7, 42⟩).map
        List.length = some 259
      ∧ dumpPath ("C:\\".toList ++ List.replicate 219 'x') ⟨2026, 11, 0, 1, 18, 14, 7, 42⟩
        = none := by
  constructor <;> decide

/-! ## The capture -/

/-- The diagnostic of a failed writer carries the last-error code in decimal; a `DWORD`
code never reaches the 1024-byte limit of the message buffer. -/
theorem CrashDumpFatal_writer_failed (e : Nat) (he : e < 2 ^ 32) :
    CrashDumpFatal "MiniDumpWriteDump failed. Error: %u\n".toList [Arg.int e]
      = [Effect.MessageBox
          ("MiniDumpWriteDump failed. Error: ".toList ++ (decimal e ++ "\n".toList))
          "Error".toList] := by
  have hfmt : vformat "MiniDumpWriteDump failed. Error: %u\n".toList [Arg.int e]
      = "MiniDumpWriteDump failed. Error: ".toList ++ (decimal e ++ "\n".toList) := rfl
  have hlen : (decimal e).length ≤ 10 :=
    decimal_length_le e 10 (by decide) (by norm_num at he ⊢; omega)
  unfold CrashDumpFatal
  rw [hfmt, List.take_of_length_le]
  rw [List.length_append, List.length_append]
  have h1 : "MiniDumpWriteDump failed. Error: ".toList.length = 33 := by decide
  have h2 : "\n".toList.length = 1 := by decide
  omega

/-- The diagnostic of a failed open names the whole path: a path held in `dumpFile` never
reaches the 1024-byte limit of the message buffer. -/
theorem CrashDumpFatal_open_failed (file : CStr) (hlen : file.length < MAX_PATH) :
    CrashDumpFatal "Failed to open file path '%ws' while generating crash dump\n".toList
        [Arg.ws file]
      = [Effect.MessageBox
          ("Failed to open file path '".toList
            ++ (file ++ "' while generating crash dump\n".toList))
          "Error".toList] := by
  have hfmt : vformat "Failed to open file path '%ws' while generating crash dump\n".toList
      [Arg.ws file]
      = "Failed to open file path '".toList
          ++ (file ++ "' while generating crash dump\n".toList) := rfl
  unfold CrashDumpFatal
  rw [hfmt, List.take_of_length_le]
  rw [List.length_append, List.length_append]
  have h1 : "Failed to open file path '".toList.length = 26 := by decide
  have h2 : "' while generating crash dump\n".toList.length = 30 := by decide
  unfold MAX_PATH at hlen
  omega

/-- The invalid-parameter path opens no file, calls no writer and closes no handle. -/
theorem invalid_parameter_noinfo_no_file (installed : Bool) :
    (invalid_parameter_noinfo installed).any Effect.isOpened = false
      ∧ (invalid_parameter_noinfo installed).countP Effect.isWriter = 0
      ∧ (invalid_parameter_noinfo installed).countP Effect.isClose = 0 := by
  cases installed <;> simp [invalid_parameter_noinfo, InvalidParameterHandler, CrashDumpFatal,
    Effect.isOpened, Effect.isWriter, Effect.isClose]

/-- C7: in a run of `CrashDumpCreate` that opens the output file, the actions from the open
onwards are exactly: the open, one call of the snapshot writer on the opened handle, one
diagnostic with the last-error code if and only if the writer failed, and one close of
that handle; in a run that does not open the file, neither the writer nor the close
occurs. -/
theorem CrashDumpCreate_writes_once_and_closes (env : Platform) (ev : EXCEPTION_POINTERS)
    (herr : env.GetLastError < 2 ^ 32) :
    ((CrashDumpCreate env ev).trace.any Effect.isOpened = true →
        (∃ path h info,
          (CrashDumpCreate env ev).trace.filter Effect.isCaptureStep
            = Effect.CreateFileW path (some h)
              :: Effect.MiniDumpWriteDump h MINIDUMP_TYPE.MiniDumpNormal info
                  (env.MiniDumpWriteDump h info)
              :: ((if env.MiniDumpWriteDump h info then []
                    else [Effect.MessageBox
                      ("MiniDumpWriteDump failed. Error: ".toList
                        ++ (decimal env.GetLastError ++ "\n".toList))
                      "Error".toList])
                  ++ [Effect.CloseHandle h]))
          ∧ (CrashDumpCreate env ev).trace.countP Effect.isWriter = 1
          ∧ (CrashDumpCreate env ev).trace.countP Effect.isClose = 1)
      ∧ ((CrashDumpCreate env ev).trace.any Effect.isOpened = false →
          (CrashDumpCreate env ev).trace.countP Effect.isWriter = 0
            ∧ (CrashDumpCreate env ev).trace.countP Effect.isClose = 0) := by
  unfold CrashDumpCreate
  cases env.GetCurrentDirectoryW with
  | none =>
    simp [CrashDumpFatal, Effect.isOpened, Effect.isWriter, Effect.isClose]
  | some cwd =>
    dsimp only
    cases dumpDir cwd with
    | none =>
      dsimp only
      have hno := invalid_parameter_noinfo_no_file env.InvalidParameterHandlerInstalled
      refine ⟨fun hopen => ?_, fun _ => hno.2⟩
      rw [hno.1] at hopen
      exact absurd hopen (by decide)
    | some dir =>
      dsimp only
      cases dumpFile dir env.GetLocalTime with
      | none =>
        dsimp only
        have hno := invalid_parameter_noinfo_no_file env.InvalidParameterHandlerInstalled
        refine ⟨fun hopen => ?_, fun _ => ?_⟩
        · rw [List.any_cons, hno.1] at hopen
          exact absurd hopen (by simp [Effect.isOpened])
        · rw [List.countP_cons_of_neg _ _ (by simp [Effect.isWriter]),
            List.countP_cons_of_neg _ _ (by simp [Effect.isClose])]
          exact hno.2
      | some file =>
        dsimp only
        cases env.openIn dir file with
        | none =>
          simp [CrashDumpFatal, Effect.isOpened, Effect.isWriter, Effect.isClose]
        | some h =>
          dsimp only
          refine ⟨fun _ => ⟨⟨file, h, ⟨env.GetCurrentThreadId, ev, true⟩, ?_⟩, ?_, ?_⟩, ?_⟩
          · cases hw : env.MiniDumpWriteDump h ⟨env.GetCurrentThreadId, ev, true⟩
            · rw [CrashDumpFatal_writer_failed _ herr]
              simp [Effect.isCaptureStep, Effect.isOpened, Effect.isWriter, Effect.isClose,
                Effect.isMessage]
            · simp [Effect.isCaptureStep, Effect.isOpened, Effect.isWriter, Effect.isClose,
                Effect.isMessage]
          · cases hw : env.MiniDumpWriteDump h ⟨env.GetCurrentThreadId, ev, true⟩ <;>
              simp [CrashDumpFatal, Effect.isWriter]
          · cases hw : env.MiniDumpWriteDump h ⟨env.GetCurrentThreadId, ev, true⟩ <;>
              simp [CrashDumpFatal, Effect.isClose]
          · simp [Effect.isOpened]

/-- C7 on the sample platform whose writer fails with last error 5, and on the platform
whose output file cannot be opened. -/
theorem CrashDumpCreate_writes_once_and_closes_witness :
    ((CrashDumpCreate failingWriterPlatform ⟨⟨0xC0000005⟩⟩).trace.countP Effect.isWriter = 1
        ∧ (CrashDumpCreate failingWriterPlatform ⟨⟨0xC0000005⟩⟩).trace.countP
            Effect.isClose = 1)
      ∧ ((CrashDumpCreate blockedDirPlatform ⟨⟨0xC0000005⟩⟩).trace.countP Effect.isWriter = 0
        ∧ (CrashDumpCreate blockedDirPlatform ⟨⟨0xC0000005⟩⟩).trace.countP
            Effect.isClose = 0) :=
  ⟨((CrashDumpCreate_writes_once_and_closes failingWriterPlatform ⟨⟨0xC0000005⟩⟩
      (by decide)).1 (by decide)).2,
    (CrashDumpCreate_writes_once_and_closes blockedDirPlatform ⟨⟨0xC0000005⟩⟩
      (by decide)).2 (by decide)⟩

/-- The whole trace of a capture whose writer fails, on the sample platform. -/
theorem CrashDumpCreate_failing_writer_sample :
    (CrashDumpCreate failingWriterPlatform ⟨⟨0xC0000005⟩⟩).trace
      = [Effect.CreateDirectoryW "C:\\x64dbg\\minidump".toList true,
         Effect.CreateFileW "C:\\x64dbg\\minidump\\dump-01112026_1814070042.dmp".toList
           (some 64),
         Effect.MiniDumpWriteDump 64 MINIDUMP_TYPE.MiniDumpNormal ⟨7, ⟨⟨0xC0000005⟩⟩, true⟩
           false,
         Effect.MessageBox "MiniDumpWriteDump failed. Error: 5\n".toList "Error".toList,
         Effect.CloseHandle 64] := by
  decide

/-- A `minidump` directory that exists already is not an error: `CreateDirectoryW` returns
`FALSE`, the file opens, the writer runs and no diagnostic is shown. -/
theorem CrashDumpCreate_existing_dir_sample :
    (CrashDumpCreate existingDirPlatform ⟨⟨0xC0000005⟩⟩).trace
      = [Effect.CreateDirectoryW "C:\\x64dbg\\minidump".toList false,
         Effect.CreateFileW "C:\\x64dbg\\minidump\\dump-01112026_1814070042.dmp".toList
           (some 64),
         Effect.MiniDumpWriteDump 64 MINIDUMP_TYPE.MiniDumpNormal ⟨7, ⟨⟨0xC0000005⟩⟩, true⟩
           true,
         Effect.CloseHandle 64] := by
  decide

/-- C9: when the working directory cannot be read, `CrashDumpCreate` shows the one
diagnostic "Unable to obtain current directory during crash dump" and does nothing else:
no directory or file is created or opened and the snapshot writer is not called; then it
returns. -/
theorem CrashDumpCreate_aborts_without_cwd (env : Platform) (ev : EXCEPTION_POINTERS)
    (hcwd : env.GetCurrentDirectoryW = none) :
    (CrashDumpCreate env ev).trace
        = [Effect.MessageBox "Unable to obtain current directory during crash dump\n".toList
            "Error".toList]
      ∧ (CrashDumpCreate env ev).trace.countP Effect.isMessage = 1
      ∧ (CrashDumpCreate env ev).trace.countP Effect.isFileSystem = 0
      ∧ (CrashDumpCreate env ev).trace.countP Effect.isWriter = 0
      ∧ (CrashDumpCreate env ev).ret = some () := by
  have hrun : CrashDumpCreate env ev
      = ⟨some (), [Effect.MessageBox
          "Unable to obtain current directory during crash dump\n".toList
          "Error".toList]⟩ := by
    unfold CrashDumpCreate
    rw [hcwd]
    rfl
  rw [hrun]
  exact ⟨rfl, rfl, rfl, rfl, rfl⟩

/-- C9 on the sample platform without a readable working directory. -/
theorem CrashDumpCreate_aborts_without_cwd_witness :
    noCwdPlatform.GetCurrentDirectoryW = none
      ∧ (CrashDumpCreate noCwdPlatform ⟨⟨0xC0000005⟩⟩).trace
        = [Effect.MessageBox "Unable to obtain current directory during crash dump\n".toList
            "Error".toList] :=
  ⟨rfl, (CrashDumpCreate_aborts_without_cwd noCwdPlatform ⟨⟨0xC0000005⟩⟩ rfl).1⟩

/-- C8, as stated, fails: run from a working directory of 222 characters with a file named
`minidump` in the way, creating the directory fails, `swprintf_s` then overflows
`dumpFile`, and the capture does not return normally; the only message is that of the
invalid-parameter handler, and no open failure is reported. -/
theorem CrashDumpCreate_long_cwd_blocked_no_return :
    longCwdBlockedPlatform.CreateDirectoryW (longCwd ++ "\\minidump".toList)
        = DirectoryOutcome.notCreated
      ∧ (CrashDumpCreate longCwdBlockedPlatform ⟨⟨0xC0000005⟩⟩).ret = none
      ∧ (CrashDumpCreate longCwdBlockedPlatform ⟨⟨0xC0000005⟩⟩).trace
        = [Effect.CreateDirectoryW (longCwd ++ "\\minidump".toList) false,
           Effect.invalid_parameter,
           Effect.MessageBox
             ("Invalid parameter passed to CRT function! Program will now crash.\n\n"
               ++ "File: ???\nFunction: ???\nExpression: ???").toList
             "Error".toList,
           Effect.rethrow] := by
  decide

/-- C8, amended: whenever creating the `minidump` directory fails during `CrashDumpCreate`,
leaving no directory at the path (for example because a file of that name blocks it), and
the dump path fits in the `MAX_PATH` buffer `dumpFile`, the capture finds the output file
unopenable, reports it through one diagnostic message naming the path, and returns
normally without calling the snapshot writer. -/
theorem CrashDumpCreate_reports_mkdir_failure (env : Platform) (ev : EXCEPTION_POINTERS)
    (cwd dir file : CStr) (hcwd : env.GetCurrentDirectoryW = some cwd)
    (hdir : dumpDir cwd = some dir)
    (hmk : env.CreateDirectoryW dir = DirectoryOutcome.notCreated)
    (hfile : dumpFile dir env.GetLocalTime = some file) :
    (CrashDumpCreate env ev).trace
        = [Effect.CreateDirectoryW dir false,
           Effect.CreateFileW file none,
           Effect.MessageBox
             ("Failed to open file path '".toList
               ++ (file ++ "' while generating crash dump\n".toList))
             "Error".toList]
      ∧ (CrashDumpCreate env ev).ret = some ()
      ∧ (CrashDumpCreate env ev).trace.countP Effect.isMessage = 1
      ∧ (CrashDumpCreate env ev).trace.countP Effect.isWriter = 0 := by
  have hopen : env.openIn dir file = none := by
    unfold Platform.openIn
    rw [if_pos hmk]
  have hrun : CrashDumpCreate env ev
      = ⟨some (), [Effect.CreateDirectoryW dir false,
           Effect.CreateFileW file none,
           Effect.MessageBox
             ("Failed to open file path '".toList
               ++ (file ++ "' while generating crash dump\n".toList))
             "Error".toList]⟩ := by
    unfold CrashDumpCreate
    rw [hcwd]
    dsimp only
    rw [hdir]
    dsimp only
    rw [hfile]
    dsimp only
    rw [hopen, hmk, CrashDumpFatal_open_failed file (dumpFile_some _ _ _ hfile).2]
    rfl
  rw [hrun]
  exact ⟨rfl, rfl, rfl, rfl⟩

/-- C8, amended, on the platform where a file named `minidump` blocks the directory. -/
theorem CrashDumpCreate_reports_mkdir_failure_witness :
    (CrashDumpCreate blockedDirPlatform ⟨⟨0xC0000005⟩⟩).trace
        = [Effect.CreateDirectoryW "C:\\x64dbg\\minidump".toList false,
           Effect.CreateFileW "C:\\x64dbg\\minidump\\dump-01112026_1814070042.dmp".toList none,
           Effect.MessageBox
             ("Failed to open file path '".toList
               ++ ("C:\\x64dbg\\minidump\\dump-01112026_1814070042.dmp".toList
                 ++ "' while generating crash dump\n".toList))
             "Error".toList]
      ∧ (CrashDumpCreate blockedDirPlatform ⟨⟨0xC0000005⟩⟩).ret = some () :=
  ⟨(CrashDumpCreate_reports_mkdir_failure blockedDirPlatform ⟨⟨0xC0000005⟩⟩
      "C:\\x64dbg".toList "C:\\x64dbg\\minidump".toList
      "C:\\x64dbg\\minidump\\dump-01112026_1814070042.dmp".toList rfl (by decide) rfl
      (by decide)).1,
    (CrashDumpCreate_reports_mkdir_failure blockedDirPlatform ⟨⟨0xC0000005⟩⟩
      "C:\\x64dbg".toList "C:\\x64dbg\\minidump".toList
      "C:\\x64dbg\\minidump\\dump-01112026_1814070042.dmp".toList rfl (by decide) rfl
      (by decide)).2.1⟩

/-! ## The runtime-contract handlers -/

/-- The message of `InvalidParameterHandler`, spelled out: the text after `File:` is the
`Function` argument and the text after `Function:` is the `File` argument. -/
theorem InvalidParameterHandler_message (Expression Function File : Option CStr)
    (Line Reserved : Nat) :
    InvalidParameterHandler Expression Function File Line Reserved
      = [Effect.MessageBox
          (("Invalid parameter passed to CRT function! Program will now crash.\n\nFile: ".toList
            ++ (orUnknown Function ++ ("\nFunction: ".toList
              ++ (orUnknown File ++ ("\nExpression: ".toList
                ++ orUnknown Expression))))).take 1023)
          "Error".toList,
         Effect.rethrow] := by
  unfold InvalidParameterHandler CrashDumpFatal
  simp only [List.singleton_append, List.cons.injEq, Effect.MessageBox.injEq, and_true]
  have hfmt : ∀ a b c : CStr,
      vformat
        "Invalid parameter passed to CRT function! Program will now crash.\n\nFile: %ws\nFunction: %ws\nExpression: %ws".toList
        [Arg.ws a, Arg.ws b, Arg.ws c]
      = "Invalid parameter passed to CRT function! Program will now crash.\n\nFile: ".toList
          ++ (a ++ ("\nFunction: ".toList ++ (b ++ ("\nExpression: ".toList ++ c)))) := by
    intro a b c
    have : c = c ++ [] := (List.append_nil c).symm
    conv_rhs => rw [this]
    rfl
  rw [hfmt]

/-- C6: called with expression `ptr != NULL`, function `memcpy_s` and file `memcpy_s.c`,
`InvalidParameterHandler` shows the function name after `File:` and the file name after
`Function:`; called with a null file and a non-null function, it shows the placeholder
after `Function:` and the function name after `File:`. -/
theorem InvalidParameterHandler_labels_swapped :
    InvalidParameterHandler (some "ptr != NULL".toList) (some "memcpy_s".toList)
        (some "memcpy_s.c".toList) 42 0
      = [Effect.MessageBox
          ("Invalid parameter passed to CRT function! Program will now crash.\n\n"
            ++ "File: memcpy_s\nFunction: memcpy_s.c\nExpression: ptr != NULL").toList
          "Error".toList,
         Effect.rethrow]
      ∧ InvalidParameterHandler (some "ptr != NULL".toList) (some "memcpy_s".toList) none 42 0
        = [Effect.MessageBox
            ("Invalid parameter passed to CRT function! Program will now crash.\n\n"
              ++ "File: memcpy_s\nFunction: ???\nExpression: ptr != NULL").toList
            "Error".toList,
           Effect.rethrow] := by
  constructor <;> decide

/-! ## Initialization -/

/-- The file-scope pointers after `CrashDumpInitialize` are those the probe resolved. -/
theorem CrashDumpInitialize_ret (DEBUG : Bool) (env : Loader) (g : Globals) :
    (CrashDumpInitialize DEBUG env g).ret = probe env g := rfl

/-- The policy-relaxation block installs no hook. -/
theorem relaxPolicy_no_hook (env : Loader) (g : Globals) :
    (relaxPolicy env g).filter Effect.isHook = [] := by
  unfold relaxPolicy
  split_ifs <;> simp [Effect.isHook]

/-- The calls of the policy setter during initialization are those of the
policy-relaxation block. -/
theorem CrashDumpInitialize_setPolicy_calls (DEBUG : Bool) (env : Loader) (g : Globals) :
    (CrashDumpInitialize DEBUG env g).trace.filter Effect.isSetPolicy
      = relaxPolicy env (probe env g) := by
  have hr : (relaxPolicy env (probe env g)).filter Effect.isSetPolicy
      = relaxPolicy env (probe env g) := by
    unfold relaxPolicy
    split_ifs <;> simp [Effect.isSetPolicy]
  unfold CrashDumpInitialize
  cases DEBUG <;> by_cases hw : (probe env g).MiniDumpWriteDumpPtr = 0 <;>
    simp [hw, hr, Effect.isSetPolicy]

/-- C4, as stated, fails: in a release build on a loader without `dbghelp.dll` the writer
stays unresolved, yet the invalid-parameter and terminate handlers are installed. -/
theorem CrashDumpInitialize_release_installs_crt_hooks :
    (CrashDumpInitialize false noDbghelpLoader Globals.zero).ret.MiniDumpWriteDumpPtr = 0
      ∧ (CrashDumpInitialize false noDbghelpLoader Globals.zero).trace
        = [Effect.LoadLibrary "dbghelp.dll",
           Effect.SetProcessUserModeExceptionPolicy 0x2,
           Effect.set_invalid_parameter_handler,
           Effect.set_terminate]
      ∧ (CrashDumpInitialize false noDbghelpLoader Globals.zero).trace.filter Effect.isHook
        = [Effect.set_invalid_parameter_handler, Effect.set_terminate] := by
  decide

/-- C4, amended: when the snapshot writer is unresolved after the probe, initialization
never installs the unhandled-exception filter; in a debug build it installs no hook at
all; in a release build it still installs the invalid-parameter handler and the terminate
handler, and only those. -/
theorem CrashDumpInitialize_without_writer (DEBUG : Bool) (env : Loader) (g : Globals)
    (hw : (CrashDumpInitialize DEBUG env g).ret.MiniDumpWriteDumpPtr = 0) :
    Effect.SetUnhandledExceptionFilter ∉ (CrashDumpInitialize DEBUG env g).trace
      ∧ (DEBUG = true → (CrashDumpInitialize DEBUG env g).trace.filter Effect.isHook = [])
      ∧ (DEBUG = false →
          (CrashDumpInitialize DEBUG env g).trace.filter Effect.isHook
            = [Effect.set_invalid_parameter_handler, Effect.set_terminate]) := by
  rw [CrashDumpInitialize_ret] at hw
  have hrel : Effect.SetUnhandledExceptionFilter ∉ relaxPolicy env (probe env g) := by
    unfold relaxPolicy
    split_ifs <;> simp
  unfold CrashDumpInitialize
  refine ⟨?_, ?_, ?_⟩
  · cases DEBUG <;> simp [hw, hrel]
  · intro hd
    simp [hw, hd, relaxPolicy_no_hook, Effect.isHook]
  · intro hd
    simp [hw, hd, relaxPolicy_no_hook, Effect.isHook]

/-- C4, amended, on a loader without `dbghelp.dll`, in a debug and in a release build. -/
theorem CrashDumpInitialize_without_writer_witness :
    (CrashDumpInitialize true noDbghelpLoader Globals.zero).trace.filter Effect.isHook = []
      ∧ (CrashDumpInitialize false noDbghelpLoader Globals.zero).trace.filter Effect.isHook
        = [Effect.set_invalid_parameter_handler, Effect.set_terminate] :=
  ⟨(CrashDumpInitialize_without_writer true noDbghelpLoader Globals.zero (by decide)).2.1 rfl,
    (CrashDumpInitialize_without_writer false noDbghelpLoader Globals.zero
      (by decide)).2.2 rfl⟩

/-- Clearing `PROCESS_CALLBACK_FILTER_ENABLED` in a 32-bit value clears bit 0, keeps every
other bit, and changes nothing when bit 0 is already clear. -/
theorem relaxed_flags_bits (flags : Nat) (hflags : flags < 2 ^ 32) :
    (flags &&& not32 PROCESS_CALLBACK_FILTER_ENABLED).testBit 0 = false
      ∧ (∀ i, i ≠ 0 →
          (flags &&& not32 PROCESS_CALLBACK_FILTER_ENABLED).testBit i = flags.testBit i)
      ∧ (flags.testBit 0 = false →
          flags &&& not32 PROCESS_CALLBACK_FILTER_ENABLED = flags) := by
  have hmask : not32 PROCESS_CALLBACK_FILTER_ENABLED = 4294967294 := by decide
  have h0 : (flags &&& 4294967294).testBit 0 = false := by
    rw [Nat.testBit_and]
    have : Nat.testBit 4294967294 0 = false := by decide
    rw [this, Bool.and_false]
  have hi : ∀ i, i ≠ 0 → (flags &&& 4294967294).testBit i = flags.testBit i := by
    intro i hne
    rw [Nat.testBit_and]
    by_cases hlt : i < 32
    · have : Nat.testBit 4294967294 i = true := by
        interval_cases i
        · exact absurd rfl hne
        all_goals decide
      rw [this, Bool.and_true]
    · have hf : flags.testBit i = false :=
        Nat.testBit_lt_two_pow
          (Nat.lt_of_lt_of_le hflags (Nat.pow_le_pow_right (by decide) (by omega)))
      rw [hf, Bool.false_and]
  rw [hmask]
  refine ⟨h0, hi, fun hclear => Nat.eq_of_testBit_eq fun i => ?_⟩
  by_cases hz : i = 0
  · subst hz
    rw [h0, hclear]
  · exact hi i hz

/-- C10: when both policy entry points are resolved and the getter succeeds with the
32-bit value `flags`, initialization calls the setter exactly once, with
`flags AND NOT 0x1`: bit 0 of the new policy is clear, every other bit is that of `flags`,
and a `flags` with bit 0 clear is passed through unchanged; when an entry point is
unresolved or the getter fails, the setter is not called. -/
theorem CrashDumpInitialize_clears_only_callback_filter (DEBUG : Bool) (env : Loader)
    (g : Globals) :
    (∀ flags, flags < 2 ^ 32 →
        (CrashDumpInitialize DEBUG env g).ret.SetProcessUserModeExceptionPolicyPtr ≠ 0 →
        (CrashDumpInitialize DEBUG env g).ret.GetProcessUserModeExceptionPolicyPtr ≠ 0 →
        env.GetProcessUserModeExceptionPolicy 0 = (true, flags) →
          (CrashDumpInitialize DEBUG env g).trace.filter Effect.isSetPolicy
              = [Effect.SetProcessUserModeExceptionPolicy
                  (flags &&& not32 PROCESS_CALLBACK_FILTER_ENABLED)]
            ∧ (flags &&& not32 PROCESS_CALLBACK_FILTER_ENABLED).testBit 0 = false
            ∧ (∀ i, i ≠ 0 →
                (flags &&& not32 PROCESS_CALLBACK_FILTER_ENABLED).testBit i
                  = flags.testBit i)
            ∧ (flags.testBit 0 = false →
                flags &&& not32 PROCESS_CALLBACK_FILTER_ENABLED = flags))
      ∧ (((CrashDumpInitialize DEBUG env g).ret.SetProcessUserModeExceptionPolicyPtr = 0
            ∨ (CrashDumpInitialize DEBUG env g).ret.GetProcessUserModeExceptionPolicyPtr = 0
            ∨ (env.GetProcessUserModeExceptionPolicy 0).1 = false) →
          (CrashDumpInitialize DEBUG env g).trace.filter Effect.isSetPolicy = []) := by
  rw [CrashDumpInitialize_setPolicy_calls, CrashDumpInitialize_ret]
  constructor
  · intro flags hflags hset hget hcall
    refine ⟨?_, relaxed_flags_bits flags hflags⟩
    unfold relaxPolicy
    rw [if_pos ⟨hset, hget⟩, hcall]
    dsimp only
    rw [if_pos rfl, Nat.mod_eq_of_lt hflags]
  · intro hno
    unfold relaxPolicy
    by_cases hp : (probe env g).SetProcessUserModeExceptionPolicyPtr ≠ 0
        ∧ (probe env g).GetProcessUserModeExceptionPolicyPtr ≠ 0
    · rw [if_pos hp]
      dsimp only
      rcases hno with h | h | h
      · exact absurd h hp.1
      · exact absurd h hp.2
      · rw [h, if_neg (by decide)]
    · rw [if_neg hp]

/-- C10 on a loader whose policy is `0x3` (the setter receives `0x2`), and on a loader
without the getter (the setter is not called). -/
theorem CrashDumpInitialize_clears_only_callback_filter_witness :
    (CrashDumpInitialize false noDbghelpLoader Globals.zero).trace.filter Effect.isSetPolicy
        = [Effect.SetProcessUserModeExceptionPolicy
            (0x3 &&& not32 PROCESS_CALLBACK_FILTER_ENABLED)]
      ∧ (CrashDumpInitialize false noGetterLoader Globals.zero).trace.filter
          Effect.isSetPolicy = [] :=
  ⟨((CrashDumpInitialize_clears_only_callback_filter false noDbghelpLoader Globals.zero).1
      0x3 (by decide) (by decide) (by decide) rfl).1,
    (CrashDumpInitialize_clears_only_callback_filter false noGetterLoader Globals.zero).2
      (Or.inr (Or.inl (by decide)))⟩

end CrashDump
